import Mathlib

/-!
Shallow embedding of `src/websocket.cpp` (inductor69/goQuant), a Boost.Beast
asynchronous WebSocket client for the Deribit market-data endpoint.

The C++ program is a chain of completion handlers on a single shared
`WebSocketClient` object:
  `run` → `on_resolve` → `on_connect` → `on_ssl_handshake` → `on_handshake`
  → `subscribe_to_orderbook` → `on_write` → `read` → `on_read` → `read` → …
Each handler receives an error code; on error it calls `fail(ec, what)` which
prints one diagnostic line and returns (no further async operation is issued);
on success it performs some mutations on the client object and issues exactly
one next asynchronous operation.

The embedding translates every handler body to a list of `Effect`s in source
statement order: field mutations of the client (`setHost`, `appendPortToHost`,
`setExpiry` for `expires_after`/`expires_never`, `clearBuffer` for
`buffer_.consume(buffer_.size())`), issued asynchronous operations
(`issue op`, one per `async_*` call), and console output (`reportFail` for
`fail`, `printMessage` / `printDecodeError` for the two branches of the JSON
parse in `on_read`).  The JSON codec is an external collaborator in the
program (JsonCpp); its parse outcome is abstracted as a boolean predicate
`decode : String → Bool` on the buffered bytes.  A step relation `step`
delivers one completion `Event` to the pending operation, runs the handler,
and moves to the next `SessionState`: `pending op c` (one operation
outstanding), `failed what ec` (after `fail`, terminal: the program registers
no further handler), or `done`.
-/

namespace GoQuant

/-- Exit status `EXIT_SUCCESS` returned at the end of `main`. -/
def EXIT_SUCCESS : Nat := 0

/-- Exit status `EXIT_FAILURE` returned on bad usage and from the catch clause. -/
def EXIT_FAILURE : Nat := 1

/-- The mutable fields of `WebSocketClient` (src/websocket.cpp lines 39-43):
`host_`, `instrument_`, the receive buffer `buffer_`, plus the observable
configuration of the underlying streams: the `tcp_stream` expiry
(`some n` after `expires_after(seconds(n))`, `none` after `expires_never` or
initially), and whether `websocket::stream_base::timeout::suggested` has been
set. -/
structure Client where
  host : String
  instrument : String
  buffer : String
  tcpExpiry : Option Nat
  wsTimeoutSuggested : Bool
deriving Repr, DecidableEq

/-- The JSON-RPC subscription request composed by `subscribe_to_orderbook`
(lines 109-113): fields `jsonrpc`, `id`, `method` and the one-element
`params.channels` array. -/
structure SubMessage where
  jsonrpc : String
  id : Nat
  method : String
  channels : List String
deriving Repr, DecidableEq

/-- The subscription message for an instrument, exactly as built in
`subscribe_to_orderbook`: channel `"book." + instrument + ".100ms"`. -/
def subscriptionMessage (instrument : String) : SubMessage :=
  { jsonrpc := "2.0", id := 1, method := "public/subscribe",
    channels := ["book." ++ instrument ++ ".100ms"] }

/-- The asynchronous operations the client can have outstanding, one per
`async_*` call site in the source, carrying the arguments of the call:
`async_resolve(host, port)`, `async_connect(results)`,
ssl `async_handshake(client)`, websocket `async_handshake(host_, "/ws/api/v2")`,
`async_write(message)`, `async_read(buffer_)`. -/
inductive NextOp where
  | resolveOp (host port : String)
  | connectOp
  | sslHandshakeOp
  | wsHandshakeOp (authority target : String)
  | writeOp (msg : SubMessage)
  | readOp
deriving Repr, DecidableEq

/-- One observable step of a handler body, in source statement order. -/
inductive Effect where
  | setHost (h : String)
  | setInstrument (i : String)
  | appendPortToHost (port : Nat)
  | setExpiry (t : Option Nat)
  | setWsSuggestedTimeout
  | clearBuffer
  | issue (op : NextOp)
  | reportFail (what : String) (ec : String)
  | printMessage (s : String)
  | printDecodeError (s : String)
deriving Repr, DecidableEq

/-- Apply one effect to the client state. Output effects leave it unchanged. -/
def applyEffect (c : Client) : Effect → Client
  | .setHost h => { c with host := h }
  | .setInstrument i => { c with instrument := i }
  | .appendPortToHost p => { c with host := c.host ++ ":" ++ toString p }
  | .setExpiry t => { c with tcpExpiry := t }
  | .setWsSuggestedTimeout => { c with wsTimeoutSuggested := true }
  | .clearBuffer => { c with buffer := "" }
  | .issue _ => c
  | .reportFail _ _ => c
  | .printMessage _ => c
  | .printDecodeError _ => c

/-- Apply a handler body's effects left to right. -/
def applyEffects (c : Client) (effs : List Effect) : Client :=
  effs.foldl applyEffect c

/-- `fail(ec, what)` (lines 175-178): prints `what << ": " << ec.message()`
to stderr and returns; it issues nothing. -/
def fail (ec : String) (what : String) : List Effect :=
  [.reportFail what ec]

/-- `on_resolve` (lines 46-57): on error, `fail(ec, "resolve")`; otherwise
`expires_after(30s)` then `async_connect`. -/
def on_resolve (ec : Option String) : List Effect :=
  match ec with
  | some m => fail m "resolve"
  | none => [.setExpiry (some 30), .issue .connectOp]

/-- `on_connect` (lines 60-75): on error, `fail(ec, "connect")`; otherwise
`host_ += ':' + to_string(ep.port())`, `expires_after(30s)`, then the SSL
`async_handshake`. -/
def on_connect (ec : Option String) (epPort : Nat) : List Effect :=
  match ec with
  | some m => fail m "connect"
  | none => [.appendPortToHost epPort, .setExpiry (some 30), .issue .sslHandshakeOp]

/-- `on_ssl_handshake` (lines 78-93): on error, `fail(ec, "ssl_handshake")`;
otherwise `expires_never()`, set the websocket suggested client timeout, then
the websocket `async_handshake(host_, "/ws/api/v2")` using the current
(already port-suffixed) `host_`. -/
def on_ssl_handshake (c : Client) (ec : Option String) : List Effect :=
  match ec with
  | some m => fail m "ssl_handshake"
  | none => [.setExpiry none, .setWsSuggestedTimeout,
             .issue (.wsHandshakeOp c.host "/ws/api/v2")]

/-- `subscribe_to_orderbook` (lines 106-122): builds the JSON-RPC subscription
for `"book." + instrument_ + ".100ms"` and issues `async_write`. -/
def subscribe_to_orderbook (c : Client) : List Effect :=
  [.issue (.writeOp (subscriptionMessage c.instrument))]

/-- `on_handshake` (lines 96-103): on error, `fail(ec, "handshake")`; otherwise
calls `subscribe_to_orderbook`. -/
def on_handshake (c : Client) (ec : Option String) : List Effect :=
  match ec with
  | some m => fail m "handshake"
  | none => subscribe_to_orderbook c

/-- `read` (lines 137-141): issues `async_read(buffer_)`. -/
def read : List Effect :=
  [.issue .readOp]

/-- `on_write` (lines 125-134): on error, `fail(ec, "write")`; otherwise
calls `read()`. `bytes_transferred` is ignored (`boost::ignore_unused`). -/
def on_write (ec : Option String) (bytes_transferred : Nat) : List Effect :=
  match ec with
  | some m => fail m "write"
  | none => read

/-- `on_read` (lines 144-172): on error, `fail(ec, "read")`; otherwise reads
the whole buffer (`buffers_to_string(buffer_.data())`), parses it with the
external JSON codec (abstracted as `decode`), prints the message on success or
a parse-failure line on failure, then clears the buffer
(`buffer_.consume(buffer_.size())`) and calls `read()` again.
`bytes_transferred` is ignored. -/
def on_read (decode : String → Bool) (c : Client) (ec : Option String)
    (bytes_transferred : Nat) : List Effect :=
  match ec with
  | some m => fail m "read"
  | none =>
    (if decode c.buffer then [Effect.printMessage c.buffer]
     else [Effect.printDecodeError c.buffer])
      ++ [Effect.clearBuffer] ++ read

/-- Completion events delivered to the pending operation, each carrying the
`error_code` (`none` = success, `some msg` = `ec.message()`).  A completed
`async_connect` also reports the connected endpoint's port; a completed
`async_read` appends the received bytes to the buffer before the handler runs. -/
inductive Event where
  | resolved (ec : Option String)
  | connected (ec : Option String) (epPort : Nat)
  | sslHandshaken (ec : Option String)
  | wsHandshaken (ec : Option String)
  | written (ec : Option String) (n : Nat)
  | readCompleted (ec : Option String) (data : String)
deriving Repr, DecidableEq

/-- The error code carried by a completion event. -/
def Event.errorCode : Event → Option String
  | .resolved ec => ec
  | .connected ec _ => ec
  | .sslHandshaken ec => ec
  | .wsHandshaken ec => ec
  | .written ec _ => ec
  | .readCompleted ec _ => ec

/-- The `what` string `fail` would receive from the handler of each
operation. -/
def phaseName : NextOp → String
  | .resolveOp _ _ => "resolve"
  | .connectOp => "connect"
  | .sslHandshakeOp => "ssl_handshake"
  | .wsHandshakeOp _ _ => "handshake"
  | .writeOp _ => "write"
  | .readOp => "read"

/-- Deliver a completion event to the pending operation: pick the registered
handler and run it.  `none` when the event is not a completion of the pending
operation (impossible in a real execution: the runtime only completes the
operation that was issued).  For `async_read`, the received bytes land in the
buffer before the handler observes it. -/
def dispatch (decode : String → Bool) (c : Client) :
    NextOp → Event → Option (Client × List Effect)
  | .resolveOp _ _, .resolved ec => some (c, on_resolve ec)
  | .connectOp, .connected ec p => some (c, on_connect ec p)
  | .sslHandshakeOp, .sslHandshaken ec => some (c, on_ssl_handshake c ec)
  | .wsHandshakeOp _ _, .wsHandshaken ec => some (c, on_handshake c ec)
  | .writeOp _, .written ec n => some (c, on_write ec n)
  | .readOp, .readCompleted ec data =>
    let c1 := match ec with
      | none => { c with buffer := c.buffer ++ data }
      | some _ => c
    some (c1, on_read decode c1 ec data.length)
  | _, _ => none

/-- Session state between event deliveries: exactly one operation pending,
or terminal.  `failed` is reached when a handler called `fail` and returned
without issuing anything; `done` would be reached by a handler that issues
nothing and reports nothing (no such handler exists in the source). -/
inductive SessionState where
  | pending (op : NextOp) (c : Client)
  | failed (what : String) (ec : String)
  | done
deriving Repr, DecidableEq

/-- The operations a handler body issued, in order. -/
def issuedOps : List Effect → List NextOp
  | [] => []
  | .issue op :: es => op :: issuedOps es
  | _ :: es => issuedOps es

/-- The first failure a handler body reported, as `(what, ec.message())`. -/
def firstFail : List Effect → Option (String × String)
  | [] => none
  | .reportFail w m :: _ => some (w, m)
  | _ :: es => firstFail es

/-- State after a handler body ran: if it issued an operation, that operation
is pending on the mutated client; otherwise the session is terminal, `failed`
when the body reported a failure. -/
def nextState (c : Client) (effs : List Effect) : SessionState :=
  match issuedOps effs with
  | op :: _ => .pending op (applyEffects c effs)
  | [] =>
    match firstFail effs with
    | some (w, m) => .failed w m
    | none => .done

/-- One transition: deliver an event to the session.  Terminal states have no
registered handler, so no event produces a transition from them. -/
def step (decode : String → Bool) :
    SessionState → Event → Option (List Effect × SessionState)
  | .pending op c, e =>
    match dispatch decode c op e with
    | none => none
    | some (c1, effs) => some (effs, nextState c1 effs)
  | .failed _ _, _ => none
  | .done, _ => none

/-- Run a list of events through the session, collecting all effects.  An
event that is not a completion of the pending operation stops the run. -/
def runEvents (decode : String → Bool) :
    SessionState → List Event → List Effect × SessionState
  | s, [] => ([], s)
  | s, e :: es =>
    match step decode s e with
    | none => ([], s)
    | some (effs, s') =>
      let r := runEvents decode s' es
      (effs ++ r.1, r.2)

/-- The freshly constructed client (all string fields empty, no expiry set,
suggested websocket timeout not yet configured). -/
def initClient : Client :=
  { host := "", instrument := "", buffer := "",
    tcpExpiry := none, wsTimeoutSuggested := false }

/-- `WebSocketClient::run` (lines 28-36): stores `host_` and `instrument_`
and issues `async_resolve(host, port)`. -/
def WebSocketClient.run (host port instrument : String) :
    List Effect × SessionState :=
  let effs : List Effect :=
    [.setHost host, .setInstrument instrument, .issue (.resolveOp host port)]
  (effs, nextState initClient effs)

/-- `main` (line 203) launches the client with the fixed endpoint
`"www.deribit.com"`, `"443"` and the instrument from the command line. -/
def mainLaunch (instrument : String) : List Effect × SessionState :=
  WebSocketClient.run "www.deribit.com" "443" instrument

/-- A whole session as launched by `main`: start, then deliver `events`. -/
def sessionRun (decode : String → Bool) (instrument : String)
    (events : List Event) : List Effect × SessionState :=
  let r0 := mainLaunch instrument
  let r := runEvents decode r0.2 events
  (r0.1 ++ r.1, r.2)

/-- `main`'s exit status (lines 181-216).  With `argc != 2` it prints usage
and returns `EXIT_FAILURE`.  Otherwise it launches the session, runs the
`io_context` to completion, and returns `EXIT_SUCCESS`; errors inside the
session are delivered to handlers as error codes and `fail` only prints, so
nothing the session does reaches the catch clause or the return value —
the outcome of `events` does not influence the status. -/
def mainExit (argv : List String) (events : List Event) : Nat :=
  if argv.length ≠ 2 then EXIT_FAILURE
  else EXIT_SUCCESS

/-- TLS verification configuration of an `ssl::context`. -/
inductive VerifyMode where
  | verify_none
  | verify_peer
deriving Repr, DecidableEq

/-- The observable TLS trust configuration: the context method, the verify
mode, whether `set_default_verify_paths` was called (system trust store), and
whether any peer host-name verification was installed
(`set_verify_callback(host_name_verification(...))` / `SSL_set1_host`) —
no such call exists anywhere in the source. -/
structure SslContext where
  method : String
  verifyMode : VerifyMode
  defaultVerifyPaths : Bool
  hostNameVerification : Bool
deriving Repr, DecidableEq

/-- `ssl::context::set_verify_mode`. -/
def set_verify_mode (ctx : SslContext) (m : VerifyMode) : SslContext :=
  { ctx with verifyMode := m }

/-- `ssl::context::set_default_verify_paths`. -/
def set_default_verify_paths (ctx : SslContext) : SslContext :=
  { ctx with defaultVerifyPaths := true }

/-- The SSL context exactly as configured by `main` (lines 198-200):
`ssl::context ctx{ssl::context::tlsv12_client}` (a fresh context verifies
nothing and has no trust paths), then `set_verify_mode(ssl::verify_peer)`,
then `set_default_verify_paths()`.  No statement in the program installs
host-name verification or SNI. -/
def mainSslContext : SslContext :=
  let ctx : SslContext :=
    { method := "tlsv12_client", verifyMode := .verify_none,
      defaultVerifyPaths := false, hostNameVerification := false }
  set_default_verify_paths (set_verify_mode ctx .verify_peer)

/-- The five completion events of a fully successful establishment phase:
resolve, TCP connect (reporting endpoint port `p`), SSL handshake, websocket
handshake, and the subscription write (of `n` bytes). -/
def successPrefix (p n : Nat) : List Event :=
  [.resolved none, .connected none p, .sslHandshaken none,
   .wsHandshaken none, .written none n]

/-- Read-loop completion events delivering the messages `ds` in order. -/
def readEvents (ds : List String) : List Event :=
  ds.map (fun d => Event.readCompleted none d)

/-- The client state on entry to the read loop after a successful
establishment phase launched by `main`. -/
def streamingClient (instr : String) (p : Nat) : Client :=
  { host := "www.deribit.com" ++ ":" ++ toString p, instrument := instr,
    buffer := "", tcpExpiry := none, wsTimeoutSuggested := true }

/-- All effects of a successful establishment phase launched by `main`. -/
def prefixEffects (instr : String) (p : Nat) : List Effect :=
  [.setHost "www.deribit.com", .setInstrument instr,
   .issue (.resolveOp "www.deribit.com" "443"),
   .setExpiry (some 30), .issue .connectOp,
   .appendPortToHost p, .setExpiry (some 30), .issue .sslHandshakeOp,
   .setExpiry none, .setWsSuggestedTimeout,
   .issue (.wsHandshakeOp ("www.deribit.com" ++ ":" ++ toString p) "/ws/api/v2"),
   .issue (.writeOp (subscriptionMessage instr)),
   .issue .readOp]

/-- Effects appear only in `mutatesHost`-marked constructors when they change
the `host_` field. -/
def mutatesHost : Effect → Bool
  | .setHost _ => true
  | .appendPortToHost _ => true
  | _ => false

/-- The endpoint-identifying payload of an operation: resolver target for
`async_resolve`, authority and target path for the websocket handshake. -/
def endpointView : NextOp → Option (String × String)
  | .resolveOp h p => some (h, p)
  | .wsHandshakeOp a t => some (a, t)
  | _ => none

theorem str_empty_append (s : String) : "" ++ s = s := rfl

theorem clear_of_empty (c : Client) (h : c.buffer = "") :
    ({ c with buffer := "" } : Client) = c := by
  cases c
  simp_all

theorem issuedOps_append (l1 l2 : List Effect) :
    issuedOps (l1 ++ l2) = issuedOps l1 ++ issuedOps l2 := by
  induction l1 with
  | nil => rfl
  | cons a l ih => cases a <;> simp [issuedOps, ih]

theorem read_step (decode : String → Bool) (c : Client) (h : c.buffer = "")
    (d : String) :
    step decode (.pending .readOp c) (.readCompleted none d) =
      some ((if decode d then [Effect.printMessage d]
             else [Effect.printDecodeError d]) ++
              [Effect.clearBuffer, Effect.issue NextOp.readOp],
            .pending .readOp c) := by
  have hb : c.buffer ++ d = d := by rw [h]; exact str_empty_append d
  cases hdec : decode d <;>
    simp [step, dispatch, on_read, hb, read, nextState, issuedOps, firstFail,
      applyEffects, applyEffect, hdec, clear_of_empty c h]

theorem readLoop_runEvents (decode : String → Bool) (c : Client)
    (h : c.buffer = "") (ds : List String) :
    runEvents decode (.pending .readOp c) (readEvents ds) =
      (ds.flatMap (fun d =>
        (if decode d then [Effect.printMessage d]
         else [Effect.printDecodeError d]) ++
          [Effect.clearBuffer, Effect.issue NextOp.readOp]),
       .pending .readOp c) := by
  induction ds with
  | nil => simp [readEvents, runEvents]
  | cons d ds ih =>
    simp [readEvents, runEvents, read_step decode c h d] at ih ⊢
    simp [ih]

theorem sessionRun_successPrefix (decode : String → Bool) (instr : String)
    (p n : Nat) (es : List Event) :
    sessionRun decode instr (successPrefix p n ++ es) =
      (prefixEffects instr p ++
        (runEvents decode (.pending .readOp (streamingClient instr p)) es).1,
       (runEvents decode (.pending .readOp (streamingClient instr p)) es).2) :=
  rfl

theorem successRun_ops (decode : String → Bool) (instr : String)
    (p n : Nat) (ds : List String) :
    issuedOps (sessionRun decode instr (successPrefix p n ++ readEvents ds)).1 =
      [NextOp.resolveOp "www.deribit.com" "443", NextOp.connectOp,
       NextOp.sslHandshakeOp,
       NextOp.wsHandshakeOp ("www.deribit.com" ++ ":" ++ toString p) "/ws/api/v2",
       NextOp.writeOp (subscriptionMessage instr), NextOp.readOp] ++
        ds.map (fun _ => NextOp.readOp) := by
  rw [sessionRun_successPrefix, issuedOps_append,
    readLoop_runEvents decode _ rfl ds]
  induction ds with
  | nil => rfl
  | cons d ds ih =>
    cases hdec : decode d <;>
      simp_all [issuedOps, issuedOps_append, prefixEffects, hdec]

theorem error_step (decode : String → Bool) (op : NextOp) (c : Client)
    (e : Event) (m : String) (effs : List Effect) (s' : SessionState)
    (herr : e.errorCode = some m)
    (hstep : step decode (.pending op c) e = some (effs, s')) :
    effs = [Effect.reportFail (phaseName op) m] ∧
      s' = SessionState.failed (phaseName op) m := by
  cases op <;> cases e <;>
    simp_all [step, dispatch, Event.errorCode, on_resolve, on_connect,
      on_ssl_handshake, on_handshake, on_write, on_read, fail, phaseName,
      nextState, issuedOps, firstFail]

/-- C1 counterexample: the claim states that the TLS handshake both
authenticates the peer chain against the system trust store AND verifies the
peer's identity against the server name.  The second half fails: `main`
configures `verify_peer` and `set_default_verify_paths`, but no statement in
the program installs host-name verification (no
`set_verify_callback(host_name_verification(...))`, no `SSL_set1_host`, and
no SNI), so the peer's identity is never checked against the server name. -/
theorem C1_counterexample :
    ¬ (mainSslContext.verifyMode = VerifyMode.verify_peer ∧
       mainSslContext.defaultVerifyPaths = true ∧
       mainSslContext.hostNameVerification = true) := by decide

/-- C1 amended: peer certificate-chain verification is mandatory
(`verify_peer`, not configurable per call) and uses the ambient system trust
store (`set_default_verify_paths`), but the peer's identity is NOT verified
against the server name: no host-name verification is installed. -/
theorem C1_trust_configuration :
    mainSslContext.verifyMode = VerifyMode.verify_peer ∧
    mainSslContext.defaultVerifyPaths = true ∧
    mainSslContext.hostNameVerification = false := by decide

/-- C2 counterexample: a run that ends in a runtime connection failure (here:
resolve fails, the session terminates in `failed "resolve" _`) has the same
exit status as a clean run — `fail` only prints a diagnostic line and `main`
still returns `EXIT_SUCCESS` — so the connection-failure status does not
differ from the clean-shutdown status. -/
theorem C2_counterexample :
    (sessionRun (fun _ => true) "BTC-PERPETUAL"
        [Event.resolved (some "Host not found")]).2 =
      SessionState.failed "resolve" "Host not found" ∧
    mainExit ["websocket_client", "BTC-PERPETUAL"]
        [Event.resolved (some "Host not found")] =
      mainExit ["websocket_client", "BTC-PERPETUAL"] [] := by
  exact ⟨rfl, rfl⟩

/-- C2 amended: the exit status distinguishes only bad usage from everything
else: a run invoked without exactly one positional argument exits with
`EXIT_FAILURE`, while every run with one argument — including one that ends
in a runtime connection failure — exits with `EXIT_SUCCESS`, the same status
as a clean shutdown. -/
theorem C2_exit_statuses (argv : List String) (events : List Event)
    (h : argv.length ≠ 2) :
    mainExit argv events = EXIT_FAILURE ∧
    (∀ prog instr evs, mainExit [prog, instr] evs = EXIT_SUCCESS) ∧
    EXIT_FAILURE ≠ EXIT_SUCCESS := by
  refine ⟨by simp [mainExit, h], fun prog instr evs => by simp [mainExit],
    by decide⟩

theorem C2_exit_statuses_witness :
    (["websocket_client"] : List String).length ≠ 2 ∧
    (mainExit ["websocket_client"] [] = EXIT_FAILURE ∧
     (∀ prog instr evs, mainExit [prog, instr] evs = EXIT_SUCCESS) ∧
     EXIT_FAILURE ≠ EXIT_SUCCESS) :=
  ⟨by decide, C2_exit_statuses ["websocket_client"] [] (by decide)⟩

/-- C3: for a successful run the issued operations are exactly resolve, TCP
connect, TLS handshake, websocket upgrade, subscribe write, then the first
read of the streaming loop, in that order; and whenever a completion reports
an error, the handler emits exactly one failure report naming the phase and
the cause and issues nothing — the session lands in the terminal `failed`
state from which no event produces any further transition (no retry). -/
theorem C3_lifecycle_order (decode : String → Bool) (instr : String)
    (p n : Nat) (op : NextOp) (c : Client) (e : Event) (m : String)
    (effs : List Effect) (s' : SessionState)
    (herr : e.errorCode = some m)
    (hstep : step decode (.pending op c) e = some (effs, s')) :
    issuedOps (sessionRun decode instr (successPrefix p n)).1 =
      [NextOp.resolveOp "www.deribit.com" "443", NextOp.connectOp,
       NextOp.sslHandshakeOp,
       NextOp.wsHandshakeOp ("www.deribit.com" ++ ":" ++ toString p)
         "/ws/api/v2",
       NextOp.writeOp (subscriptionMessage instr), NextOp.readOp] ∧
    (sessionRun decode instr (successPrefix p n)).2 =
      SessionState.pending NextOp.readOp (streamingClient instr p) ∧
    effs = [Effect.reportFail (phaseName op) m] ∧
    s' = SessionState.failed (phaseName op) m ∧
    (∀ e', step decode (SessionState.failed (phaseName op) m) e' = none) := by
  obtain ⟨h1, h2⟩ := error_step decode op c e m effs s' herr hstep
  have horder := successRun_ops decode instr p n []
  simp [readEvents] at horder
  exact ⟨horder, rfl, h1, h2, fun e' => rfl⟩

theorem C3_lifecycle_order_witness :
    (Event.resolved (some "Host not found")).errorCode = some "Host not found" ∧
    step (fun _ => true)
        (.pending (NextOp.resolveOp "www.deribit.com" "443") initClient)
        (Event.resolved (some "Host not found")) =
      some ([Effect.reportFail "resolve" "Host not found"],
        SessionState.failed "resolve" "Host not found") ∧
    (issuedOps (sessionRun (fun _ => true) "BTC-PERPETUAL" (successPrefix 443 7)).1 =
      [NextOp.resolveOp "www.deribit.com" "443", NextOp.connectOp,
       NextOp.sslHandshakeOp,
       NextOp.wsHandshakeOp ("www.deribit.com" ++ ":" ++ toString 443)
         "/ws/api/v2",
       NextOp.writeOp (subscriptionMessage "BTC-PERPETUAL"), NextOp.readOp] ∧
    (sessionRun (fun _ => true) "BTC-PERPETUAL" (successPrefix 443 7)).2 =
      SessionState.pending NextOp.readOp (streamingClient "BTC-PERPETUAL" 443) ∧
    [Effect.reportFail "resolve" "Host not found"] =
      [Effect.reportFail (phaseName (NextOp.resolveOp "www.deribit.com" "443"))
        "Host not found"] ∧
    SessionState.failed "resolve" "Host not found" =
      SessionState.failed
        (phaseName (NextOp.resolveOp "www.deribit.com" "443")) "Host not found" ∧
    (∀ e', step (fun _ => true)
        (SessionState.failed
          (phaseName (NextOp.resolveOp "www.deribit.com" "443")) "Host not found")
        e' = none)) :=
  ⟨rfl, rfl,
    C3_lifecycle_order (fun _ => true) "BTC-PERPETUAL" 443 7
      (NextOp.resolveOp "www.deribit.com" "443") initClient
      (Event.resolved (some "Host not found")) "Host not found"
      [Effect.reportFail "resolve" "Host not found"]
      (SessionState.failed "resolve" "Host not found") rfl rfl⟩

theorem issued_on_resolve_le (ec : Option String) :
    (issuedOps (on_resolve ec)).length ≤ 1 := by
  cases ec <;> simp [on_resolve, fail, issuedOps]

theorem issued_on_connect_le (ec : Option String) (p : Nat) :
    (issuedOps (on_connect ec p)).length ≤ 1 := by
  cases ec <;> simp [on_connect, fail, issuedOps]

theorem issued_on_ssl_le (c : Client) (ec : Option String) :
    (issuedOps (on_ssl_handshake c ec)).length ≤ 1 := by
  cases ec <;> simp [on_ssl_handshake, fail, issuedOps]

theorem issued_on_handshake_le (c : Client) (ec : Option String) :
    (issuedOps (on_handshake c ec)).length ≤ 1 := by
  cases ec <;> simp [on_handshake, subscribe_to_orderbook, fail, issuedOps]

theorem issued_on_write_le (ec : Option String) (n : Nat) :
    (issuedOps (on_write ec n)).length ≤ 1 := by
  cases ec <;> simp [on_write, read, fail, issuedOps]

theorem issued_on_read_le (decode : String → Bool) (c : Client)
    (ec : Option String) (n : Nat) :
    (issuedOps (on_read decode c ec n)).length ≤ 1 := by
  cases ec <;> [skip; simp [on_read, fail, issuedOps]]
  cases hdec : decode c.buffer <;>
    simp [on_read, read, issuedOps, issuedOps_append, hdec]

/-- C4: the design is strictly sequential.  Every completion handler issues
at most one next operation; the start call `run` issues exactly one (the
resolve); and a transition — hence the issuing of any operation — only ever
happens from a state with exactly one pending operation (`pending op c`),
i.e. from inside the completion of that single outstanding operation, never
from a terminal state and never concurrently with another pending one. -/
theorem C4_single_outstanding (decode : String → Bool) (c c1 : Client)
    (op : NextOp) (e : Event) (effs : List Effect)
    (hd : dispatch decode c op e = some (c1, effs)) :
    (issuedOps effs).length ≤ 1 ∧
    (∀ host port instr,
        issuedOps (WebSocketClient.run host port instr).1 =
          [NextOp.resolveOp host port]) ∧
    (∀ s e' effs' s', step decode s e' = some (effs', s') →
        ∃ op0 c0, s = SessionState.pending op0 c0) := by
  refine ⟨?_, fun host port instr => rfl, ?_⟩
  · cases op <;> cases e <;> simp [dispatch] at hd <;> obtain ⟨-, rfl⟩ := hd
    · exact issued_on_resolve_le _
    · exact issued_on_connect_le _ _
    · exact issued_on_ssl_le _ _
    · exact issued_on_handshake_le _ _
    · exact issued_on_write_le _ _
    · exact issued_on_read_le _ _ _ _
  · intro s e' effs' s' hs
    cases s with
    | pending op0 c0 => exact ⟨op0, c0, rfl⟩
    | failed w m => simp [step] at hs
    | done => simp [step] at hs

theorem C4_single_outstanding_witness :
    dispatch (fun _ => true) initClient NextOp.connectOp
        (Event.connected none 443) =
      some (initClient, on_connect none 443) ∧
    ((issuedOps (on_connect none 443)).length ≤ 1 ∧
     (∀ host port instr,
         issuedOps (WebSocketClient.run host port instr).1 =
           [NextOp.resolveOp host port]) ∧
     (∀ s e' effs' s', step (fun _ => true) s e' = some (effs', s') →
         ∃ op0 c0, s = SessionState.pending op0 c0)) :=
  ⟨rfl, C4_single_outstanding (fun _ => true) initClient initClient
    NextOp.connectOp (Event.connected none 443) (on_connect none 443) rfl⟩

/-- C5: `on_resolve` sets a 30-unit expiry on the stream and only then issues
the TCP connect; `on_connect` sets a fresh 30-unit expiry and only then
issues the TLS handshake; `on_ssl_handshake` on success first disables the
connect-phase expiry (`expires_never`), installs the websocket layer's own
suggested timeout policy, and only then issues the upgrade — and no later
handler (`on_handshake`, `on_write`, `on_read`) ever touches the stream
expiry again. -/
theorem C5_timeout_discipline (decode : String → Bool) (c : Client)
    (ec : Option String) (p bt : Nat) :
    on_resolve none = [Effect.setExpiry (some 30), Effect.issue NextOp.connectOp] ∧
    on_connect none p =
      [Effect.appendPortToHost p, Effect.setExpiry (some 30),
       Effect.issue NextOp.sslHandshakeOp] ∧
    on_ssl_handshake c none =
      [Effect.setExpiry none, Effect.setWsSuggestedTimeout,
       Effect.issue (NextOp.wsHandshakeOp c.host "/ws/api/v2")] ∧
    (applyEffects c (on_ssl_handshake c none)).tcpExpiry = none ∧
    (applyEffects c (on_ssl_handshake c none)).wsTimeoutSuggested = true ∧
    (∀ a ∈ on_handshake c ec, ∀ t, a ≠ Effect.setExpiry t) ∧
    (∀ a ∈ on_write ec bt, ∀ t, a ≠ Effect.setExpiry t) ∧
    (∀ a ∈ on_read decode c ec bt, ∀ t, a ≠ Effect.setExpiry t) := by
  refine ⟨rfl, rfl, rfl, rfl, rfl, ?_, ?_, ?_⟩
  · cases ec <;> simp [on_handshake, subscribe_to_orderbook, fail]
  · cases ec <;> simp [on_write, read, fail]
  · cases ec <;> [skip; simp [on_read, fail]]
    cases hdec : decode c.buffer <;> simp [on_read, read, hdec]

/-- C6: a received message whose payload fails to decode is only reported:
the step emits the parse-failure diagnostic, still clears the buffer, and
issues the next read, landing back in the streaming state (`pending readOp`
with an empty buffer) — byte-for-byte the same continuation as a message
that decodes successfully, which differs only in the report effect.  A decode
failure is never fatal. -/
theorem C6_decode_failure_nonfatal (decode : String → Bool) (c c' : Client)
    (data data' : String)
    (hf : decode (c.buffer ++ data) = false)
    (ht : decode (c'.buffer ++ data') = true) :
    step decode (.pending .readOp c) (.readCompleted none data) =
      some ([Effect.printDecodeError (c.buffer ++ data), Effect.clearBuffer,
             Effect.issue NextOp.readOp],
            .pending .readOp { c with buffer := "" }) ∧
    step decode (.pending .readOp c') (.readCompleted none data') =
      some ([Effect.printMessage (c'.buffer ++ data'), Effect.clearBuffer,
             Effect.issue NextOp.readOp],
            .pending .readOp { c' with buffer := "" }) := by
  constructor <;>
    simp [step, dispatch, on_read, hf, ht, read, nextState, issuedOps,
      firstFail, applyEffects, applyEffect]

theorem C6_decode_failure_nonfatal_witness :
    ((fun s => s == "ok") (initClient.buffer ++ "garbage") = false ∧
     (fun s => s == "ok") (initClient.buffer ++ "ok") = true) ∧
    (step (fun s => s == "ok") (.pending .readOp initClient)
        (.readCompleted none "garbage") =
      some ([Effect.printDecodeError (initClient.buffer ++ "garbage"),
             Effect.clearBuffer, Effect.issue NextOp.readOp],
            .pending .readOp { initClient with buffer := "" }) ∧
     step (fun s => s == "ok") (.pending .readOp initClient)
        (.readCompleted none "ok") =
      some ([Effect.printMessage (initClient.buffer ++ "ok"),
             Effect.clearBuffer, Effect.issue NextOp.readOp],
            .pending .readOp { initClient with buffer := "" })) :=
  ⟨⟨rfl, rfl⟩,
    C6_decode_failure_nonfatal (fun s => s == "ok") initClient initClient
      "garbage" "ok" rfl rfl⟩

/-- C7: iterating the read loop never retains more than one message.  From a
streaming state with an empty buffer, delivering any sequence of messages
leaves the session in the same state with the buffer empty again, and the
collected effects show that each iteration observed exactly its own message
(the report names precisely that message's bytes) and cleared the buffer
before issuing the next read. -/
theorem C7_buffer_drained (decode : String → Bool) (c : Client)
    (ds : List String) (h : c.buffer = "") :
    (runEvents decode (.pending .readOp c) (readEvents ds)).2 =
      SessionState.pending NextOp.readOp c ∧
    (runEvents decode (.pending .readOp c) (readEvents ds)).1 =
      ds.flatMap (fun d =>
        (if decode d then [Effect.printMessage d]
         else [Effect.printDecodeError d]) ++
          [Effect.clearBuffer, Effect.issue NextOp.readOp]) := by
  rw [readLoop_runEvents decode c h ds]
  exact ⟨rfl, rfl⟩

theorem C7_buffer_drained_witness :
    initClient.buffer = "" ∧
    ((runEvents (fun s => s == "alpha") (.pending .readOp initClient)
        (readEvents ["alpha", "beta"])).2 =
      SessionState.pending NextOp.readOp initClient ∧
     (runEvents (fun s => s == "alpha") (.pending .readOp initClient)
        (readEvents ["alpha", "beta"])).1 =
      (["alpha", "beta"] : List String).flatMap (fun d =>
        (if (fun s => s == "alpha") d then [Effect.printMessage d]
         else [Effect.printDecodeError d]) ++
          [Effect.clearBuffer, Effect.issue NextOp.readOp])) :=
  ⟨rfl, C7_buffer_drained (fun s => s == "alpha") initClient
    ["alpha", "beta"] rfl⟩

/-- Recognizes the subscription write among issued operations. -/
def isWriteOp : NextOp → Bool
  | .writeOp _ => true
  | _ => false

theorem countP_isWriteOp_readOps (ds : List String) :
    (ds.map (fun _ => NextOp.readOp)).countP isWriteOp = 0 := by
  induction ds with
  | nil => rfl
  | cons d ds ih => simp [List.countP_cons, isWriteOp, ih]

theorem filterMap_endpointView_readOps (ds : List String) :
    (ds.map (fun _ => NextOp.readOp)).filterMap endpointView = [] := by
  induction ds with
  | nil => rfl
  | cons d ds ih => simp [endpointView, ih]

/-- C8: in every successful run exactly one subscription write is issued; it
comes right after the websocket upgrade completes and before the first read
of the streaming loop, and its message subscribes the single channel
`"book." ++ instrument ++ ".100ms"` for the instrument given at start.
`on_write` on success immediately issues the next read without waiting for
any inbound acknowledgment. -/
theorem C8_single_subscribe (decode : String → Bool) (instr : String)
    (p n bt : Nat) (ds : List String) :
    issuedOps (sessionRun decode instr (successPrefix p n ++ readEvents ds)).1 =
      [NextOp.resolveOp "www.deribit.com" "443", NextOp.connectOp,
       NextOp.sslHandshakeOp,
       NextOp.wsHandshakeOp ("www.deribit.com" ++ ":" ++ toString p)
         "/ws/api/v2",
       NextOp.writeOp (subscriptionMessage instr), NextOp.readOp] ++
        ds.map (fun _ => NextOp.readOp) ∧
    (issuedOps (sessionRun decode instr
        (successPrefix p n ++ readEvents ds)).1).countP isWriteOp = 1 ∧
    subscriptionMessage instr =
      { jsonrpc := "2.0", id := 1, method := "public/subscribe",
        channels := ["book." ++ instr ++ ".100ms"] } ∧
    on_write none bt = [Effect.issue NextOp.readOp] := by
  have h := successRun_ops decode instr p n ds
  refine ⟨h, ?_, rfl, rfl⟩
  rw [h, List.countP_append, countP_isWriteOp_readOps]
  simp [List.countP_cons, isWriteOp]

theorem C9_successRun_filter_mutatesHost (decode : String → Bool)
    (instr : String) (p n : Nat) :
    ((sessionRun decode instr (successPrefix p n)).1).filter mutatesHost =
      [Effect.setHost "www.deribit.com", Effect.appendPortToHost p] := by
  have h : successPrefix p n = successPrefix p n ++ [] := by simp
  rw [h, sessionRun_successPrefix]
  rfl

/-- C9: the `host_` string is mutated exactly once over the lifecycle.  Apart
from the initial `host_ = host` assignment in `run`, the only handler whose
effects touch `host_` is `on_connect` on success, which appends exactly
`":<port>"` once; every other completion leaves `host_` unchanged, including
all failure paths; `on_ssl_handshake` then uses the current (mutated) host as
the websocket-handshake authority; and over a whole successful run the host
mutations are precisely the start assignment followed by the single port
append. -/
theorem C9_host_mutation (decode : String → Bool) (c c1 : Client)
    (op : NextOp) (e : Event) (effs : List Effect)
    (hd : dispatch decode c op e = some (c1, effs)) :
    (op ≠ NextOp.connectOp → effs.countP mutatesHost = 0) ∧
    (∀ p, e = Event.connected none p →
        effs.filter mutatesHost = [Effect.appendPortToHost p]) ∧
    (∀ m p, e = Event.connected (some m) p → effs.countP mutatesHost = 0) ∧
    (∀ ec, e = Event.sslHandshaken ec → ec = none →
        effs = [Effect.setExpiry none, Effect.setWsSuggestedTimeout,
                Effect.issue (NextOp.wsHandshakeOp c.host "/ws/api/v2")]) ∧
    (∀ instr p2 n2,
        ((sessionRun decode instr (successPrefix p2 n2)).1).filter mutatesHost =
          [Effect.setHost "www.deribit.com", Effect.appendPortToHost p2]) := by
  refine ⟨?_, ?_, ?_, ?_, C9_successRun_filter_mutatesHost decode⟩
  · intro hop
    cases op <;> cases e <;> simp [dispatch] at hd <;> obtain ⟨-, rfl⟩ := hd
    · rename_i ec; cases ec <;> simp [on_resolve, fail, mutatesHost]
    · exact absurd rfl hop
    · rename_i ec; cases ec <;>
        simp [on_ssl_handshake, fail, mutatesHost, List.countP_cons]
    · rename_i ec
      cases ec <;>
        simp [on_handshake, subscribe_to_orderbook, fail, mutatesHost,
          List.countP_cons]
    · rename_i ec _; cases ec <;>
        simp [on_write, read, fail, mutatesHost, List.countP_cons]
    · rename_i ec data
      cases ec
      · cases hdec : decode (c.buffer ++ data) <;>
          simp [on_read, read, mutatesHost, List.countP_cons,
            List.countP_append, hdec]
      · simp [on_read, fail, mutatesHost, List.countP_cons]
  · intro p he
    subst he
    cases op <;> simp [dispatch] at hd
    obtain ⟨-, rfl⟩ := hd
    simp [on_connect, mutatesHost]
  · intro m p he
    subst he
    cases op <;> simp [dispatch] at hd
    obtain ⟨-, rfl⟩ := hd
    simp [on_connect, fail, mutatesHost, List.countP_cons]
  · intro ec he hec
    subst he
    subst hec
    cases op <;> simp [dispatch] at hd
    obtain ⟨-, rfl⟩ := hd
    rfl

theorem C9_host_mutation_witness :
    dispatch (fun _ => true) initClient NextOp.connectOp
        (Event.connected none 443) =
      some (initClient, on_connect none 443) ∧
    ((NextOp.connectOp ≠ NextOp.connectOp →
        (on_connect none 443).countP mutatesHost = 0) ∧
     (∀ p, Event.connected none 443 = Event.connected none p →
        (on_connect none 443).filter mutatesHost = [Effect.appendPortToHost p]) ∧
     (∀ m p, Event.connected none 443 = Event.connected (some m) p →
        (on_connect none 443).countP mutatesHost = 0) ∧
     (∀ ec, Event.connected none 443 = Event.sslHandshaken ec → ec = none →
        on_connect none 443 =
          [Effect.setExpiry none, Effect.setWsSuggestedTimeout,
           Effect.issue (NextOp.wsHandshakeOp initClient.host "/ws/api/v2")]) ∧
     (∀ instr p2 n2,
        ((sessionRun (fun _ => true) instr (successPrefix p2 n2)).1).filter
            mutatesHost =
          [Effect.setHost "www.deribit.com", Effect.appendPortToHost p2])) :=
  ⟨rfl, C9_host_mutation (fun _ => true) initClient initClient
    NextOp.connectOp (Event.connected none 443) (on_connect none 443) rfl⟩

/-- C10: for every instrument given on the command line, `main` launches the
session against the fixed endpoint `"www.deribit.com"` port `"443"`, the
websocket upgrade always targets authority `"www.deribit.com:<port>"` with
path `"/ws/api/v2"`, the endpoint-identifying payloads of the issued
operations are identical for any two instruments, and the instrument appears
only in the subscription message's channel name. -/
theorem C10_fixed_endpoint (decode : String → Bool) (instr instr2 : String)
    (p n : Nat) (ds : List String) :
    (mainLaunch instr).1 =
      [Effect.setHost "www.deribit.com", Effect.setInstrument instr,
       Effect.issue (NextOp.resolveOp "www.deribit.com" "443")] ∧
    issuedOps (sessionRun decode instr (successPrefix p n ++ readEvents ds)).1 =
      [NextOp.resolveOp "www.deribit.com" "443", NextOp.connectOp,
       NextOp.sslHandshakeOp,
       NextOp.wsHandshakeOp ("www.deribit.com" ++ ":" ++ toString p)
         "/ws/api/v2",
       NextOp.writeOp (subscriptionMessage instr), NextOp.readOp] ++
        ds.map (fun _ => NextOp.readOp) ∧
    (issuedOps (sessionRun decode instr
        (successPrefix p n ++ readEvents ds)).1).filterMap endpointView =
      [("www.deribit.com", "443"),
       ("www.deribit.com" ++ ":" ++ toString p, "/ws/api/v2")] ∧
    (issuedOps (sessionRun decode instr
        (successPrefix p n ++ readEvents ds)).1).filterMap endpointView =
      (issuedOps (sessionRun decode instr2
        (successPrefix p n ++ readEvents ds)).1).filterMap endpointView ∧
    subscriptionMessage instr =
      { jsonrpc := "2.0", id := 1, method := "public/subscribe",
        channels := ["book." ++ instr ++ ".100ms"] } := by
  have h := successRun_ops decode instr p n ds
  have h2 := successRun_ops decode instr2 p n ds
  have hview : ∀ i : String,
      (issuedOps (sessionRun decode i
          (successPrefix p n ++ readEvents ds)).1).filterMap endpointView =
        [("www.deribit.com", "443"),
         ("www.deribit.com" ++ ":" ++ toString p, "/ws/api/v2")] := by
    intro i
    rw [successRun_ops decode i p n ds, List.filterMap_append,
      filterMap_endpointView_readOps]
    simp [endpointView]
  exact ⟨rfl, h, hview instr, (hview instr).trans (hview instr2).symm, rfl⟩

end GoQuant
